import Mathlib

/-!
Verification of the connection-pool lifecycle manager and query-execution
safety gate of `fastmcp_sqltools/server.py`.

The embedding models:
- the module-global connection pool (`_connection_pool`) as an explicit
  `DBState` threaded through each operation;
- the process environment, the outcome of `asyncpg.create_pool`, and the
  driver `fetch` as an oracle record `World`;
- pools as opaque identifiers (`Nat`), driver rows as ordered
  column/value lists;
- exceptions as an `Outcome` sum;
- the `async` suspension point inside `get_pool` (the `await
  asyncpg.create_pool(...)`) as a small-step interleaving model
  (`raceStep` / `raceRun`) used for the concurrency claim.
-/

namespace SqlTools

/-- Scalar query-parameter / cell values; their internal structure is
irrelevant to every property here, so they are opaque integers. -/
abbrev Val := Int

/-- A result tuple as returned by the driver: column names in engine
order together with the values.  `dict(row)` on such a record yields an
ordered column-name-to-value mapping. -/
structure DBRow where
  cols : List String
  vals : List Val
deriving Repr, DecidableEq

/-- The projection `dict(row)` applied to one driver record: an ordered
association list from column name to value, in engine column order. -/
def dictOfRow (r : DBRow) : List (String × Val) :=
  r.cols.zip r.vals

/-- Error taxonomy of the server module.
`validationNonSelect` and `validationKeyword` are the two
`ValueError`s raised by the safety gate of `execute_safe_query`;
`configError` is the `ValueError` for a missing `DATABASE_URL`;
`connError` is a re-raised `asyncpg.create_pool` failure;
`engineError` is any failure surfaced by `conn.fetch`. -/
inductive Err where
  | validationNonSelect
  | validationKeyword (k : String)
  | configError
  | connError
  | engineError
deriving Repr, DecidableEq

/-- Result of a Python call: a value, or a raised exception. -/
inductive Outcome (α : Type) where
  | ok (a : α)
  | error (e : Err)
deriving Repr, DecidableEq

/-- The environment and driver behaviour an invocation runs against:
`database_url` is `os.getenv("DATABASE_URL")`; `createResult` is the
outcome of `await asyncpg.create_pool(url)` (`some pid` = a fresh pool,
`none` = the call raises); `fetch` is the driver function `conn.fetch`
(`Except.error` = the engine raises). -/
structure World where
  database_url : Option String
  createResult : Option Nat
  fetch : String → List Val → Except Unit (List DBRow)

/-- The mutable module state plus instrumentation:
`pool` is the global `_connection_pool`; `createCalls` counts
invocations of `asyncpg.create_pool`; `fetchCalls` records every
`conn.fetch` call as (inside-readonly-transaction?, statement,
positional args). -/
structure DBState where
  pool : Option Nat
  createCalls : Nat
  fetchCalls : List (Bool × String × List Val)
deriving Repr, DecidableEq

/-- Python truthiness of `os.getenv("DATABASE_URL")`: `if not database_url:`
fires when the variable is unset or the empty string. -/
def pyFalsyStr : Option String → Bool
  | none => true
  | some s => s.isEmpty

/-- Python truthiness of the `params` argument: `if params:` fires only
for a present, non-empty list. -/
def pyTruthyList : Option (List Val) → Bool
  | none => false
  | some l => !l.isEmpty

/-- The function `get_pool`: return the global pool if set; otherwise read
`DATABASE_URL` (raising if falsy), attempt `asyncpg.create_pool`
(assigning the global only on success, re-raising on failure), and
return the pool. -/
def get_pool (w : World) (st : DBState) : Outcome Nat × DBState :=
  match st.pool with
  | some p => (Outcome.ok p, st)
  | none =>
    let database_url := w.database_url
    if pyFalsyStr database_url then
      (Outcome.error Err.configError, st)
    else
      match w.createResult with
      | some pid =>
        (Outcome.ok pid,
          { st with pool := some pid, createCalls := st.createCalls + 1 })
      | none =>
        (Outcome.error Err.connError,
          { st with createCalls := st.createCalls + 1 })

/-- Python `s.strip()` on the character sequence: drop whitespace from
both ends. -/
def trimList (l : List Char) : List Char :=
  ((l.dropWhile Char.isWhitespace).reverse.dropWhile Char.isWhitespace).reverse

/-- Python `s.upper()` on the character sequence: uppercase each
character. -/
def upperList (l : List Char) : List Char :=
  l.map Char.toUpper

/-- The text `query.strip().upper()` — the normalized working copy
`query_stripped` built by the safety gate. -/
def normalize (query : String) : List Char :=
  upperList (trimList query.toList)

/-- Python `s.startswith(needle)`: `needle` occurs as a contiguous run
at the front of `hay`. -/
def leadsWith : List Char → List Char → Bool
  | [], _ => true
  | _ :: _, [] => false
  | a :: as, b :: bs => a == b && leadsWith as bs

/-- Python `needle in hay` on strings: `needle` occurs as a contiguous
run somewhere in `hay`. -/
def occursIn (needle hay : List Char) : Bool :=
  leadsWith needle hay ||
    match hay with
    | [] => false
    | _ :: t => occursIn needle t

/-- The fixed keyword deny-list of `execute_safe_query`, in source
order. -/
def disallowed_keywords : List String :=
  ["INSERT", "UPDATE", "DELETE", "DROP", "CREATE", "ALTER", "TRUNCATE"]

/-- Safety verdict of the gate in `execute_safe_query`. -/
inductive Verdict where
  | allowed
  | rejectedNonSelect
  | rejectedKeyword (k : String)
deriving Repr, DecidableEq

/-- The safety gate of `execute_safe_query` (lines 160–170 of
`server.py`): strip and uppercase a working copy; reject unless it
starts with `"SELECT"`; then reject on the first deny-listed keyword
occurring as a substring, scanning the deny-list in order. -/
def validate (query : String) : Verdict :=
  let query_stripped := normalize query
  if !(leadsWith "SELECT".toList query_stripped) then
    Verdict.rejectedNonSelect
  else
    match disallowed_keywords.find? (fun k => occursIn k.toList query_stripped) with
    | some k => Verdict.rejectedKeyword k
    | none => Verdict.allowed

/-- The tool `execute_query`: acquire the pool, then `conn.fetch` with positional
parameters when `params` is truthy, the bare statement otherwise;
project rows with `dict(row)`. Any exception propagates. -/
def execute_query (w : World) (st : DBState) (query : String)
    (params : Option (List Val)) :
    Outcome (List (List (String × Val))) × DBState :=
  match get_pool w st with
  | (Outcome.ok _, st1) =>
    let args := if pyTruthyList params then params.getD [] else []
    let st2 := { st1 with fetchCalls := st1.fetchCalls ++ [(false, query, args)] }
    match w.fetch query args with
    | Except.ok rows => (Outcome.ok (rows.map dictOfRow), st2)
    | Except.error _ => (Outcome.error Err.engineError, st2)
  | (Outcome.error e, st1) => (Outcome.error e, st1)

/-- The tool `execute_safe_query`: run the safety gate on the statement text
(raising before anything else on rejection), then acquire the pool and
`conn.fetch` the ORIGINAL statement — inside `conn.transaction(readonly=True)`,
recorded as the `true` flag on the fetch call — with the same
params truthiness test and the same row projection as `execute_query`. -/
def execute_safe_query (w : World) (st : DBState) (query : String)
    (params : Option (List Val)) :
    Outcome (List (List (String × Val))) × DBState :=
  match validate query with
  | Verdict.rejectedNonSelect => (Outcome.error Err.validationNonSelect, st)
  | Verdict.rejectedKeyword k => (Outcome.error (Err.validationKeyword k), st)
  | Verdict.allowed =>
    match get_pool w st with
    | (Outcome.ok _, st1) =>
      let args := if pyTruthyList params then params.getD [] else []
      let st2 := { st1 with fetchCalls := st1.fetchCalls ++ [(true, query, args)] }
      match w.fetch query args with
      | Except.ok rows => (Outcome.ok (rows.map dictOfRow), st2)
      | Except.error _ => (Outcome.error Err.engineError, st2)
    | (Outcome.error e, st1) => (Outcome.error e, st1)

/-- First whitespace-delimited token of the normalized (trimmed,
uppercased) statement — the notion the first-token wording of the spec
refers to. -/
def firstToken (s : String) : List Char :=
  (normalize s).takeWhile (fun c => !c.isWhitespace)

/-! ### Interleaving model of concurrent first calls to `get_pool`

`get_pool` is an `async` coroutine whose only suspension point on the
first-call path is `await asyncpg.create_pool(database_url)`.  The code
between entering the function and reaching that `await` (the
`_connection_pool is None` check and the `DATABASE_URL` read) runs
without yielding, and so does the code from the completion of the
`await` to `return` (the assignment to the global and the re-read for
the return value).  A task is therefore a two-phase machine:

- `TPC.start`:  about to run the `None` check; if the global already
  holds a pool, the task returns it at once, otherwise it proceeds to
  the `await` and suspends (`TPC.creating`);
- `TPC.creating`: its `create_pool` completes, yielding a fresh pool,
  which it assigns to the global and returns (`TPC.done`).

The model covers the scenario of the claim: `DATABASE_URL` is configured
and every `create_pool` attempt succeeds, returning a fresh pool
identified by a counter. -/

/-- Program counter of one task running `get_pool`. -/
inductive TPC where
  | start
  | creating
  | done (p : Nat)
deriving Repr, DecidableEq

/-- Global state shared by concurrently running `get_pool` tasks. -/
structure RaceState where
  pool : Option Nat
  nextId : Nat
  createCalls : Nat
  tasks : List TPC
deriving Repr, DecidableEq

/-- Run task `i` up to its next suspension point (or to completion). -/
def raceStep (s : RaceState) (i : Nat) : RaceState :=
  match s.tasks[i]? with
  | some TPC.start =>
    match s.pool with
    | some p => { s with tasks := s.tasks.set i (TPC.done p) }
    | none => { s with tasks := s.tasks.set i TPC.creating }
  | some TPC.creating =>
    let pid := s.nextId
    { pool := some pid
      nextId := s.nextId + 1
      createCalls := s.createCalls + 1
      tasks := s.tasks.set i (TPC.done pid) }
  | _ => s

/-- Run a schedule (a list of task indices) from a state. -/
def raceRun (sched : List Nat) (s : RaceState) : RaceState :=
  sched.foldl raceStep s

/-- Two tasks about to make the first-ever call to `get_pool`. -/
def initRace : RaceState :=
  { pool := none, nextId := 0, createCalls := 0, tasks := [TPC.start, TPC.start] }

/-- The validation-level component of an invocation result: `some` of
the gate error when the call failed the safety gate, `none`
otherwise. -/
def gateErrOf : Outcome (List (List (String × Val))) × DBState → Option Err
  | (Outcome.error Err.validationNonSelect, _) => some Err.validationNonSelect
  | (Outcome.error (Err.validationKeyword k), _) => some (Err.validationKeyword k)
  | _ => none

/-- The `ValueError` raised for a rejecting safety verdict (only
meaningful on the two rejecting constructors). -/
def errOfVerdict : Verdict → Err
  | Verdict.rejectedNonSelect => Err.validationNonSelect
  | Verdict.rejectedKeyword k => Err.validationKeyword k
  | Verdict.allowed => Err.engineError

/-- Forget the readonly-transaction flag of a recorded fetch call. -/
def stripRO (c : Bool × String × List Val) : String × List Val := c.2

/-- A concrete benign world: `DATABASE_URL` is set, pool creation
succeeds with pool 0, and every fetch returns no rows. -/
def w0 : World :=
  { database_url := some "postgres:db", createResult := some 0,
    fetch := fun _ _ => Except.ok [] }

/-- A concrete world with no `DATABASE_URL` configured. -/
def wNoCfg : World :=
  { database_url := none, createResult := some 0,
    fetch := fun _ _ => Except.ok [] }

/-- A concrete world where `DATABASE_URL` is set but pool creation
fails (engine unreachable). -/
def wDown : World :=
  { database_url := some "postgres:db", createResult := none,
    fetch := fun _ _ => Except.ok [] }

/-- The initial module state: no pool created yet, nothing logged. -/
def st0 : DBState :=
  { pool := none, createCalls := 0, fetchCalls := [] }

end SqlTools

namespace SqlTools

/-- C1 — counterexample.  The claim says a statement whose first token
is anything other than `SELECT` is rejected, but the code only checks
the prefix: `"SELECTX FROM T"` has first token `SELECTX`, yet the gate
allows it and the statement reaches execution. -/
theorem select_check_not_token_based :
    firstToken "SELECTX FROM T" ≠ "SELECT".toList ∧
    validate "SELECTX FROM T" = Verdict.allowed ∧
    (execute_safe_query w0 st0 "SELECTX FROM T" none).1 = Outcome.ok [] := by
  decide

/-- C1 (amended): `execute_safe_query` raises the only-SELECT
`ValidationError` exactly when the normalized statement (whitespace
trimmed, uppercased) does not START WITH `SELECT` — a prefix check, not
a first-token check; in particular leading whitespace before a
lower-case `select` passes the check. -/
theorem select_check_requires_select_at_start :
    (∀ q, validate q = Verdict.rejectedNonSelect ↔
      leadsWith "SELECT".toList (normalize q) = false) ∧
    validate "   \n  SELECT * FROM users" = Verdict.allowed ∧
    validate "   \n  select * from users" = Verdict.allowed := by
  refine ⟨fun q => ?_, by decide, by decide⟩
  simp only [validate]
  cases h : leadsWith "SELECT".toList (normalize q)
  · simp [h]
  · simp only [h, Bool.not_true, Bool.false_eq_true, if_false]
    cases hf : disallowed_keywords.find? (fun k => occursIn k.toList (normalize q)) <;>
      simp [hf]

/-- C4 — the code at the failing input.  With two concurrent first
calls interleaved as check₁, check₂, create₁, create₂ (schedule
`[0, 1, 0, 1]`), `get_pool` creates TWO pools: both tasks pass the
`None` check before either assigns, so both `create_pool` attempts run;
the second assignment overwrites the first and the callers end with
distinct pool handles.  A serialized schedule (`[0, 0, 1, 1]`) creates
exactly one pool shared by both, confirming the defect is the missing
initialization lock, not the model. -/
theorem get_pool_race_two_creations :
    (raceRun [0, 1, 0, 1] initRace).createCalls = 2 ∧
    (raceRun [0, 1, 0, 1] initRace).tasks = [TPC.done 0, TPC.done 1] ∧
    (raceRun [0, 1, 0, 1] initRace).pool = some 1 ∧
    (raceRun [0, 0, 1, 1] initRace).createCalls = 1 ∧
    (raceRun [0, 0, 1, 1] initRace).tasks = [TPC.done 0, TPC.done 0] := by
  decide

/-- The library function `List.find?` returns `some k` exactly when `k` is in the list,
satisfies the predicate, and every element strictly before the first
occurrence of `k` fails the predicate: first match wins, in list
order. -/
theorem find?_eq_some_first {α : Type} [DecidableEq α] (p : α → Bool) :
    ∀ (l : List α) (k : α),
      l.find? p = some k ↔
        (k ∈ l ∧ p k = true ∧ ∀ j ∈ l.takeWhile (fun x => x != k), p j = false) := by
  intro l
  induction l with
  | nil => intro k; simp
  | cons a t ih =>
    intro k
    cases hpa : p a
    · rw [List.find?_cons_of_neg _ (by simp [hpa]), ih k]
      by_cases hak : a = k
      · subst hak
        constructor
        · rintro ⟨hk, hpk, _⟩
          rw [hpa] at hpk
          cases hpk
        · rintro ⟨_, hpk, _⟩
          rw [hpa] at hpk
          cases hpk
      · have htw : List.takeWhile (fun x => x != k) (a :: t)
            = a :: List.takeWhile (fun x => x != k) t := by
          rw [List.takeWhile_cons]
          simp [bne, hak]
        rw [htw]
        constructor
        · rintro ⟨hk, hpk, hfirst⟩
          refine ⟨List.mem_cons_of_mem _ hk, hpk, fun j hj => ?_⟩
          rcases List.mem_cons.mp hj with rfl | hj2
          · exact hpa
          · exact hfirst j hj2
        · rintro ⟨hk, hpk, hfirst⟩
          rcases List.mem_cons.mp hk with rfl | hk2
          · exact absurd rfl hak
          · exact ⟨hk2, hpk, fun j hj => hfirst j (List.mem_cons_of_mem _ hj)⟩
    · rw [List.find?_cons_of_pos _ hpa]
      constructor
      · intro he
        have hak : a = k := by injection he
        subst hak
        refine ⟨List.mem_cons_self a t, hpa, fun j hj => ?_⟩
        have htw : List.takeWhile (fun x => x != a) (a :: t) = [] := by
          rw [List.takeWhile_cons]
          simp
        rw [htw] at hj
        cases hj
      · rintro ⟨hk, hpk, hfirst⟩
        by_cases hak : a = k
        · rw [hak]
        · exfalso
          have htw : List.takeWhile (fun x => x != k) (a :: t)
              = a :: List.takeWhile (fun x => x != k) t := by
            rw [List.takeWhile_cons]
            simp [bne, hak]
          have : p a = false :=
            hfirst a (by rw [htw]; exact List.mem_cons_self _ _)
          rw [hpa] at this
          cases this

/-- C2: for a statement passing the first check, the gate raises the
keyword `ValidationError` naming `k` exactly when `k` is one of the
seven deny-listed literals, `k` occurs as a plain substring of the
normalized statement, and no deny-list entry BEFORE `k` (in the fixed
scan order) occurs in it; the gate allows the statement exactly when
none of the seven occurs.  Substring containment, not tokenization:
the witness shows `UPDATED_AT` triggering the `UPDATE` rejection. -/
theorem keyword_rejection_first_match (q : String)
    (h : leadsWith "SELECT".toList (normalize q) = true) :
    (∀ k, validate q = Verdict.rejectedKeyword k ↔
        (k ∈ disallowed_keywords ∧ occursIn k.toList (normalize q) = true ∧
          ∀ k2 ∈ disallowed_keywords.takeWhile (fun x => x != k),
            occursIn k2.toList (normalize q) = false)) ∧
    (validate q = Verdict.allowed ↔
      ∀ k ∈ disallowed_keywords, occursIn k.toList (normalize q) = false) := by
  have hv : validate q =
      match disallowed_keywords.find? (fun k => occursIn k.toList (normalize q)) with
      | some k => Verdict.rejectedKeyword k
      | none => Verdict.allowed := by
    simp only [validate]
    rw [h]
    rfl
  constructor
  · intro k
    have hc := find?_eq_some_first (fun k => occursIn k.toList (normalize q))
      disallowed_keywords k
    rw [hv]
    cases hf : disallowed_keywords.find? (fun k => occursIn k.toList (normalize q)) with
    | none =>
      simp only [List.find?_eq_none] at hf
      simp only [hf]
      constructor
      · intro he
        cases he
      · rintro ⟨hk, hpk, _⟩
        exact absurd hpk (by simpa using hf k hk)
    | some k2 =>
      simp only
      constructor
      · intro he
        have : k2 = k := by injection he
        subst this
        exact hc.mp hf
      · intro hR
        have h2 := hc.mpr hR
        rw [hf] at h2
        have : k2 = k := by injection h2
        rw [this]
  · rw [hv]
    cases hf : disallowed_keywords.find? (fun k => occursIn k.toList (normalize q)) with
    | none =>
      simp only [List.find?_eq_none] at hf
      simp only [Bool.not_eq_true] at hf
      simpa using fun k hk => hf k hk
    | some k2 =>
      have hp2 := List.find?_some hf
      have hm2 := List.mem_of_find?_eq_some hf
      simp only
      constructor
      · intro he
        cases he
      · intro hall
        exact absurd hp2 (by rw [hall k2 hm2]; simp)

/-- C2 — witness at `"SELECT UPDATED_AT FROM T"`: the identifier
`UPDATED_AT` contains the substring `UPDATE`, so the statement is
rejected naming `UPDATE`. -/
theorem keyword_rejection_first_match_witness :
    leadsWith "SELECT".toList (normalize "SELECT UPDATED_AT FROM T") = true ∧
    validate "SELECT UPDATED_AT FROM T" = Verdict.rejectedKeyword "UPDATE" := by
  have h : leadsWith "SELECT".toList (normalize "SELECT UPDATED_AT FROM T") = true := by
    decide
  exact ⟨h, ((keyword_rejection_first_match _ h).1 "UPDATE").mpr (by decide)⟩

/-- The function `get_pool` only ever raises the missing-configuration or the
pool-creation error, never a validation error. -/
theorem get_pool_err_kinds (w : World) (st : DBState) :
    ∀ e, (get_pool w st).1 = Outcome.error e →
      e = Err.configError ∨ e = Err.connError := by
  intro e
  unfold get_pool
  cases hsp : st.pool with
  | some p => intro he; cases he
  | none =>
    dsimp only
    split
    · intro he
      cases he
      exact Or.inl rfl
    · cases hcr : w.createResult with
      | some pid => intro he; cases he
      | none =>
        intro he
        cases he
        exact Or.inr rfl

/-- The function `get_pool` never records a driver fetch. -/
theorem get_pool_fetchCalls (w : World) (st : DBState) :
    (get_pool w st).2.fetchCalls = st.fetchCalls := by
  unfold get_pool
  cases hsp : st.pool with
  | some p => rfl
  | none =>
    dsimp only
    split
    · rfl
    · cases hcr : w.createResult <;> rfl

/-- C3: the safety verdict of `execute_safe_query` is a pure function
of the statement text: for the same statement, any two parameter lists
(present, absent, empty, different) produce exactly the same
validation outcome. -/
theorem safety_verdict_independent_of_params (q : String) (w : World) (st : DBState)
    (p1 p2 : Option (List Val)) :
    gateErrOf (execute_safe_query w st q p1) = gateErrOf (execute_safe_query w st q p2) := by
  have key : ∀ p, gateErrOf (execute_safe_query w st q p) =
      (match validate q with
        | Verdict.rejectedNonSelect => some Err.validationNonSelect
        | Verdict.rejectedKeyword k => some (Err.validationKeyword k)
        | Verdict.allowed => none) := by
    intro p
    simp only [execute_safe_query]
    cases hv : validate q with
    | rejectedNonSelect => rfl
    | rejectedKeyword k => rfl
    | allowed =>
      cases hg : get_pool w st with
      | mk r st1 =>
        cases r with
        | ok pid =>
          dsimp only
          cases hw : w.fetch q (if pyTruthyList p then p.getD [] else []) <;> rfl
        | error e =>
          rcases get_pool_err_kinds w st e (by rw [hg]) with rfl | rfl <;> rfl
  rw [key p1, key p2]

/-- C5: once the pool exists, `get_pool` returns exactly the stored
pool object and leaves the state untouched — no `create_pool`
invocation (the creation counter is unchanged) — and the result does
not depend on the environment `w` at all, so the configuration is not
re-read and no connectivity is re-validated. -/
theorem get_pool_reuses_existing_pool (w : World) (st : DBState) (p : Nat)
    (h : st.pool = some p) :
    get_pool w st = (Outcome.ok p, st) := by
  simp [get_pool, h]

/-- C5 — witness: with pool 7 already stored, a further call returns
pool 7 and the identical state. -/
theorem get_pool_reuses_existing_pool_witness :
    ({ pool := some 7, createCalls := 1, fetchCalls := [] } : DBState).pool = some 7 ∧
    get_pool w0 { pool := some 7, createCalls := 1, fetchCalls := [] }
      = (Outcome.ok 7, { pool := some 7, createCalls := 1, fetchCalls := [] }) :=
  ⟨rfl, get_pool_reuses_existing_pool w0 _ 7 rfl⟩

/-- C6: when `create_pool` raises, the shared reference stays unset
(the returned state still has `pool = none`, only the attempt counter
moved), and a subsequent call in a healthy environment retries
initialization from scratch and succeeds with a fresh pool. -/
theorem get_pool_failure_not_cached (w w2 : World) (st : DBState) (pid : Nat)
    (h1 : st.pool = none) (h2 : pyFalsyStr w.database_url = false)
    (h3 : w.createResult = none) (h4 : pyFalsyStr w2.database_url = false)
    (h5 : w2.createResult = some pid) :
    get_pool w st = (Outcome.error Err.connError,
        { st with createCalls := st.createCalls + 1 }) ∧
    get_pool w2 { st with createCalls := st.createCalls + 1 } =
      (Outcome.ok pid,
        { st with pool := some pid, createCalls := st.createCalls + 2 }) := by
  constructor
  · simp [get_pool, h1, h2, h3]
  · simp only [get_pool, h1, h2, h4, h5, Bool.false_eq_true, if_false]

/-- C6 — witness: engine down on the first call, reachable on the
second: the first call fails with the connection error and leaves the
pool unset, the second succeeds with pool 0. -/
theorem get_pool_failure_not_cached_witness :
    st0.pool = none ∧ pyFalsyStr wDown.database_url = false ∧
    wDown.createResult = none ∧ pyFalsyStr w0.database_url = false ∧
    w0.createResult = some 0 ∧
    (get_pool wDown st0 = (Outcome.error Err.connError,
        { st0 with createCalls := st0.createCalls + 1 }) ∧
      get_pool w0 { st0 with createCalls := st0.createCalls + 1 } =
        (Outcome.ok 0,
          { st0 with pool := some 0, createCalls := st0.createCalls + 2 })) :=
  ⟨rfl, rfl, rfl, rfl, rfl,
    get_pool_failure_not_cached wDown w0 st0 0 rfl rfl rfl rfl rfl⟩

/-- C7: with no connection string configured (unset or empty) and no
pool yet, `get_pool` raises the configuration error and leaves the
state unchanged, so the same call immediately repeated fails
identically — an idempotent failure, not a crash or a cached pool. -/
theorem get_pool_missing_config_idempotent (w : World) (st : DBState)
    (h1 : st.pool = none) (h2 : pyFalsyStr w.database_url = true) :
    get_pool w st = (Outcome.error Err.configError, st) ∧
    get_pool w (get_pool w st).2 = (Outcome.error Err.configError, st) := by
  have h : get_pool w st = (Outcome.error Err.configError, st) := by
    simp [get_pool, h1, h2]
  refine ⟨h, ?_⟩
  rw [h]
  exact h

/-- C7 — witness: `DATABASE_URL` unset, fresh state. -/
theorem get_pool_missing_config_idempotent_witness :
    st0.pool = none ∧ pyFalsyStr wNoCfg.database_url = true ∧
    (get_pool wNoCfg st0 = (Outcome.error Err.configError, st0) ∧
      get_pool wNoCfg (get_pool wNoCfg st0).2 = (Outcome.error Err.configError, st0)) :=
  ⟨rfl, rfl, get_pool_missing_config_idempotent wNoCfg st0 rfl rfl⟩

/-- C8: when the safety gate rejects, `execute_safe_query` raises the
corresponding `ValueError` with the state returned EXACTLY as it was:
the pool reference is unchanged, `create_pool` was never invoked, and
no driver fetch was recorded — rejection happens before any pool or
connection acquisition. -/
theorem safe_query_rejection_touches_nothing (w : World) (st : DBState) (q : String)
    (p : Option (List Val)) (h : validate q ≠ Verdict.allowed) :
    execute_safe_query w st q p = (Outcome.error (errOfVerdict (validate q)), st) := by
  simp only [execute_safe_query]
  cases hv : validate q with
  | allowed => exact absurd hv h
  | rejectedNonSelect => rfl
  | rejectedKeyword k => rfl

/-- C8 — witness: a rejected statement in a healthy world leaves the
fresh state byte-for-byte unchanged. -/
theorem safe_query_rejection_touches_nothing_witness :
    validate "DELETE FROM users" ≠ Verdict.allowed ∧
    execute_safe_query w0 st0 "DELETE FROM users" none
      = (Outcome.error (errOfVerdict (validate "DELETE FROM users")), st0) :=
  ⟨by decide, safe_query_rejection_touches_nothing w0 st0 "DELETE FROM users" none (by decide)⟩

/-- C9: on a statement the gate allows, `execute_safe_query` behaves
exactly like `execute_query` up to the readonly-transaction wrapper:
same result value (same row projection), same pool state and creation
count, the same driver calls modulo the transaction flag, and any
driver call it makes passes the ORIGINAL (untrimmed, case-preserved)
statement with the same positional-parameter handling. -/
theorem safe_query_refines_execute_query (w : World) (st : DBState) (q : String)
    (p : Option (List Val)) (h : validate q = Verdict.allowed) :
    (execute_safe_query w st q p).1 = (execute_query w st q p).1 ∧
    (execute_safe_query w st q p).2.pool = (execute_query w st q p).2.pool ∧
    (execute_safe_query w st q p).2.createCalls = (execute_query w st q p).2.createCalls ∧
    (execute_safe_query w st q p).2.fetchCalls.map stripRO
      = (execute_query w st q p).2.fetchCalls.map stripRO ∧
    ((execute_safe_query w st q p).2.fetchCalls = st.fetchCalls ∨
      (execute_safe_query w st q p).2.fetchCalls
        = st.fetchCalls ++ [(true, q, if pyTruthyList p then p.getD [] else [])]) := by
  simp only [execute_safe_query, execute_query, h]
  cases hg : get_pool w st with
  | mk r st1 =>
    have hfc : st1.fetchCalls = st.fetchCalls := by
      rw [← get_pool_fetchCalls w st, hg]
    cases r with
    | error e => exact ⟨rfl, rfl, rfl, rfl, Or.inl hfc⟩
    | ok pid =>
      dsimp only
      cases hw : w.fetch q (if pyTruthyList p then p.getD [] else []) with
      | ok rows =>
        refine ⟨rfl, rfl, rfl, by simp [stripRO], Or.inr ?_⟩
        dsimp only
        rw [hfc]
      | error u =>
        refine ⟨rfl, rfl, rfl, by simp [stripRO], Or.inr ?_⟩
        dsimp only
        rw [hfc]

/-- C9 — witness at `"SELECT 1"` with one positional parameter. -/
theorem safe_query_refines_execute_query_witness :
    validate "SELECT 1" = Verdict.allowed ∧
    ((execute_safe_query w0 st0 "SELECT 1" (some [1])).1
        = (execute_query w0 st0 "SELECT 1" (some [1])).1 ∧
      (execute_safe_query w0 st0 "SELECT 1" (some [1])).2.pool
        = (execute_query w0 st0 "SELECT 1" (some [1])).2.pool ∧
      (execute_safe_query w0 st0 "SELECT 1" (some [1])).2.createCalls
        = (execute_query w0 st0 "SELECT 1" (some [1])).2.createCalls ∧
      (execute_safe_query w0 st0 "SELECT 1" (some [1])).2.fetchCalls.map stripRO
        = (execute_query w0 st0 "SELECT 1" (some [1])).2.fetchCalls.map stripRO ∧
      ((execute_safe_query w0 st0 "SELECT 1" (some [1])).2.fetchCalls = st0.fetchCalls ∨
        (execute_safe_query w0 st0 "SELECT 1" (some [1])).2.fetchCalls
          = st0.fetchCalls
            ++ [(true, "SELECT 1", if pyTruthyList (some [1]) then (some [1]).getD [] else [])])) :=
  ⟨by decide, safe_query_refines_execute_query w0 st0 "SELECT 1" (some [1]) (by decide)⟩

/-- C10: an empty parameter list is treated exactly like an absent
one, in both execution paths: the whole invocation (result and final
state, including the recorded driver call) is identical. -/
theorem empty_params_same_as_none (w : World) (st : DBState) (q : String) :
    execute_query w st q (some []) = execute_query w st q none ∧
    execute_safe_query w st q (some []) = execute_safe_query w st q none :=
  ⟨rfl, rfl⟩

end SqlTools
